import Mathlib

/-!
Shallow embedding of the fasthx request/response negotiation and rendering
pipeline (core decorators, component selectors, Jinja and HTMY adapters),
together with proofs of the specified behavioral properties.

Python machine model conventions:

- Python dictionaries are modelled as association lists together with the
  insert-overwrite operations `dictSet` / `dictOfList` / `dictUpdate` that
  mirror `d[k] = v`, dict comprehensions and `d.update(...)`.
- Exceptions are modelled by the inductive `Exc` carrying a class tag (with
  the relevant part of Python's exception class hierarchy), a detail
  message, an optional HTTP status (for `fastapi.HTTPException`) and an
  optional cause (for `raise ... from e`).
- Fallible code returns `Except Exc`.
- The dispatch wrappers additionally produce a chronological list of
  `Event`s, which makes "the handler was never invoked" and "no chunk was
  produced before X" statements precise.
-/

set_option autoImplicit false

namespace FastHX

/-! ### Python dictionary model -/

/-- Lookup in an association list (first matching key). -/
def dictGet {α : Type} (d : List (String × α)) (k : String) : Option α :=
  (d.find? (fun kv => kv.1 == k)).map (·.2)

/-- Python dictionary assignment `d[k] = v`: overwrite in place if the key is
present, append otherwise. -/
def dictSet {α : Type} (d : List (String × α)) (k : String) (v : α) : List (String × α) :=
  if d.any (fun kv => kv.1 == k) then
    d.map (fun kv => if kv.1 == k then (k, v) else kv)
  else
    d ++ [(k, v)]

/-- Python dict construction from a sequence of key-value pairs (later
bindings overwrite earlier ones), as in dict comprehensions. -/
def dictOfList {α : Type} (l : List (String × α)) : List (String × α) :=
  l.foldl (fun acc kv => dictSet acc kv.1 kv.2) []

/-- Python `d.update(e)`. -/
def dictUpdate {α : Type} (d e : List (String × α)) : List (String × α) :=
  e.foldl (fun acc kv => dictSet acc kv.1 kv.2) d

/-- Keys of a dictionary. -/
def dictKeys {α : Type} (d : List (String × α)) : List String :=
  d.map (·.1)

/-- Python `str.lower()`, written as a structural map over the string's
characters so that concrete instances evaluate inside proofs. -/
def pyLower (s : String) : String :=
  ⟨s.data.map Char.toLower⟩

/-! ### Exception model -/

/-- The part of Python's exception class hierarchy relevant to fasthx:
`KeyError` and `IndexError` are subclasses of `LookupError`, which (like
`ValueError` and FastAPI's `HTTPException`) is a subclass of `Exception`.
`userDefined n` stands for an arbitrary user exception class deriving
directly from `Exception` (such as the `DataError` class in the tests). -/
inductive ExcClass where
  | exceptionBase
  | lookupError
  | keyError
  | indexError
  | valueError
  | httpError
  | userDefined (n : Nat)
  deriving DecidableEq, Repr

/-- All ancestors of an exception class (including itself), following
Python's method resolution order for this fragment of the hierarchy. -/
def ExcClass.ancestors : ExcClass → List ExcClass
  | .exceptionBase => [.exceptionBase]
  | .lookupError => [.lookupError, .exceptionBase]
  | .keyError => [.keyError, .lookupError, .exceptionBase]
  | .indexError => [.indexError, .lookupError, .exceptionBase]
  | .valueError => [.valueError, .exceptionBase]
  | .httpError => [.httpError, .exceptionBase]
  | .userDefined n => [.userDefined n, .exceptionBase]

/-- `c.isSubclass d` holds when `c` is `d` or inherits from `d`. -/
def ExcClass.isSubclass (c d : ExcClass) : Bool :=
  c.ancestors.contains d

/-- A Python exception value: its class, its message (for `HTTPException`
the `detail` argument), the HTTP status (only used by `HTTPException`) and
the `__cause__` set by `raise ... from e`. -/
inductive Exc where
  | mk (cls : ExcClass) (detail : String) (status : Option Nat) (cause : Option Exc)

/-- Class of an exception. -/
def Exc.cls : Exc → ExcClass
  | .mk c _ _ _ => c

/-- Message / detail of an exception. -/
def Exc.detail : Exc → String
  | .mk _ d _ _ => d

/-- HTTP status carried by an `HTTPException`. -/
def Exc.status : Exc → Option Nat
  | .mk _ _ s _ => s

/-- Cause of the exception (`raise ... from e`). -/
def Exc.cause : Exc → Option Exc
  | .mk _ _ _ c => c

/-- `isinstance(e, filter)` where `filter` is an exception type or a tuple
of exception types (modelled as a list of classes). -/
def Exc.isinstanceOf (e : Exc) (filter : List ExcClass) : Bool :=
  filter.any (fun c => e.cls.isSubclass c)

/-! ### Requests and the request classifier -/

/-- An inbound request, reduced to its header mapping. Header-name lookup in
Starlette is case insensitive; `headers` abstracts the already-normalized
lookup function. -/
structure Request where
  headers : String → Option String

/-- `fasthx.dependencies.get_hx_request`: returns the request itself if it
carries an `HX-Request: true` header, `None` otherwise. -/
def get_hx_request (request : Request) : Option Request :=
  if request.headers "hx-request" = some "true" then some request else none

/-! ### Python values (route results and rendering contexts) -/

/-- Python values as far as the pipeline inspects them: dictionaries,
non-dict collections (lists, tuples, sets modelled by `pylist`; strings,
which are also collections, by `pystr`), objects exposing `__dict__`
(`pyobj`) or only `__slots__` (`pyslots`), `None`, and values matching none
of the conversion rules (integers, `pyint`). -/
inductive PyVal where
  | pydict (entries : List (String × PyVal))
  | pylist (elems : List PyVal)
  | pystr (s : String)
  | pyobj (attrs : List (String × PyVal))
  | pyslots (attrs : List (String × PyVal))
  | pynone
  | pyint (n : Int)

/-- `fasthx.jinja.JinjaContext.unpack_object`: converts a route result into
a Jinja context dictionary. Branch order follows the source: `dict` first,
then any other `Collection`, then `__dict__`/`__slots__` introspection
(dropping attributes whose name starts with an underscore), then `None`;
anything else raises `ValueError`. -/
def unpack_object : PyVal → Except Exc (List (String × PyVal))
  | .pydict entries => .ok entries
  | .pylist elems => .ok [("items", .pylist elems)]
  | .pystr s => .ok [("items", .pystr s)]
  | .pyobj attrs => .ok (attrs.filter (fun kv => !kv.1.startsWith "_"))
  | .pyslots attrs => .ok (attrs.filter (fun kv => !kv.1.startsWith "_"))
  | .pynone => .ok []
  | .pyint _ => .error (.mk .valueError "Result conversion failed, unknown result type." none none)

/-! ### Side-channel responses and route keyword arguments -/

/-- The mutable `fastapi.Response` dependency object a handler may use as a
side channel: its status code (which FastAPI leaves as `None` until set),
headers, and background task (identified by an opaque token). -/
structure SideResponse where
  status_code : Option Nat := none
  headers : List (String × String) := []
  background : Option Nat := none
  deriving DecidableEq, Repr

/-- A value bound to one of the route's keyword arguments: either a
`Response` instance or any other value. -/
inductive KwVal where
  | resp (r : SideResponse)
  | val (v : PyVal)

/-- The route's keyword arguments (the render context). -/
abbrev Kwargs := List (String × KwVal)

/-- `fasthx.utils.get_response`: the first `Response` instance among the
values of the keyword arguments, if any. -/
def get_response (kwargs : Kwargs) : Option SideResponse :=
  (kwargs.map (·.2)).findSome? (fun v =>
    match v with
    | .resp r => some r
    | .val _ => none)

/-- Outcome of invoking the wrapped route handler: a `Response` instance, a
plain value, or a raised exception (the `Except` layer). -/
inductive RouteResult where
  | resp (r : SideResponse)
  | val (v : PyVal)

/-! ### Events, assembled responses and response assembly helpers -/

/-- Chronological events observable while a dispatch wrapper (and, for
streaming, the transport that later consumes the stream) runs. -/
inductive Event where
  | handlerInvoked
  | renderCalled
  | errorRenderCalled
  | contextBuilt
  | templateRendered
  | responseReturned
  | chunkEmitted (chunk : String)
  deriving DecidableEq, Repr

/-- Whether an event is the emission of a response chunk. -/
def Event.isChunk : Event → Bool
  | .chunkEmitted _ => true
  | _ => false

/-- The data of an assembled `fastapi.responses.HTMLResponse`. -/
structure HTMLResponseData where
  body : String
  status_code : Nat
  headers : Option (List (String × String))
  media_type : String
  background : Option Nat

/-- The data of an assembled `fastapi.responses.StreamingResponse`; `stream`
is the not-yet-consumed chunk source handed to the transport. -/
structure StreamingResponseData where
  stream : List String
  status_code : Nat
  headers : Option (List (String × String))
  media_type : String
  background : Option Nat

/-- What a dispatch wrapper returns on success: the raw route value
(non-fragment passthrough), a `Response` the handler itself returned, or an
assembled HTML/streaming response. -/
inductive HxOutput where
  | data (v : PyVal)
  | passthrough (r : SideResponse)
  | html (h : HTMLResponseData)
  | streaming (s : StreamingResponseData)

/-- `getattr(response, "status_code", 200) or 200`: 200 when there is no
side-channel response, when its status code is unset (`None`), or when it
is falsy (`0`); the stored status code otherwise. -/
def response_status : Option SideResponse → Nat
  | none => 200
  | some r =>
    match r.status_code with
    | none => 200
    | some n => if n = 0 then 200 else n

/-- `getattr(response, "headers", None)`. -/
def response_headers : Option SideResponse → Option (List (String × String)) :=
  fun r => r.map (·.headers)

/-- `getattr(response, "background", None)`. -/
def response_background : Option SideResponse → Option Nat :=
  fun r => r.bind (·.background)

/-- The `HTMLResponse(rendered, status_code=..., headers=..., background=...)`
constructor call shared by the buffered wrappers: status code, headers and
background task come from the side-channel response, the media type is
`HTMLResponse`'s `text/html`. -/
def make_html (response : Option SideResponse) (body : String) : HTMLResponseData :=
  { body := body
    status_code := response_status response
    headers := response_headers response
    media_type := "text/html"
    background := response_background response }

/-- The `StreamingResponse(content_stream, status_code=..., headers=...,
media_type="text/html", background=...)` constructor call shared by the
streaming wrappers. -/
def make_streaming (response : Option SideResponse) (chunks : List String) :
    StreamingResponseData :=
  { stream := chunks
    status_code := response_status response
    headers := response_headers response
    media_type := "text/html"
    background := response_background response }

/-- The `HTTPException` raised by `hx()` when a `no_data` route receives a
non-HTMX request. -/
def hx_no_data_error : Exc :=
  .mk .httpError "This route can only process HTMX requests." (some 400) none

/-- Models the host framework's (FastAPI's) default `HTTPException`
handler, which serializes the exception into the JSON body
`\x7b"detail": <detail>\x7d` of the outgoing response. -/
def fastapi_http_error_body (e : Exc) : String :=
  "\x7b\"detail\":\"" ++ e.detail ++ "\"\x7d"

/-! ### The core dispatch decorators (`fasthx.core_decorators`) -/

/-- A (possibly async) render function as the core decorators see it:
`(result, context, request) -> str`, which may raise. -/
abbrev RenderFn := PyVal → Kwargs → Request → Except Exc String

/-- An error render function: same shape, applied to the raised exception. -/
abbrev ErrorRenderFn := Exc → Kwargs → Request → Except Exc String

/-- A streaming render function: a synchronous call that may raise and
otherwise returns the not-yet-consumed chunk iterator. -/
abbrev StreamingRenderFn := PyVal → Kwargs → Request → Except Exc (List String)

/-- A streaming error render function. -/
abbrev StreamingErrorRenderFn := Exc → Kwargs → Request → Except Exc (List String)

/-- The wrapper produced by the `hx()` decorator (buffered mode), as a
function of the injected `__hx_request` dependency value, the handler's
outcome and the route's keyword arguments. Mirrors
`fasthx.core_decorators.hx` line by line: the `no_data` check precedes the
handler call; a handler error is re-raised unless an error renderer is
configured and the request is an HTMX one; non-HTMX requests and `Response`
results pass through unrendered; otherwise the renderer's output is wrapped
in an `HTMLResponse` carrying the side-channel response's status code,
headers and background task. -/
def hx_wrapper (render : RenderFn) (render_error : Option ErrorRenderFn) (no_data : Bool)
    (hx_request : Option Request) (handler : Except Exc RouteResult) (kwargs : Kwargs) :
    List Event × Except Exc HxOutput :=
  if no_data && hx_request.isNone then
    ([], .error hx_no_data_error)
  else
    match handler with
    | .error e =>
      match render_error, hx_request with
      | none, _ => ([.handlerInvoked], .error e)
      | some _, none => ([.handlerInvoked], .error e)
      | some re, some req =>
        let response := get_response kwargs
        match re e kwargs req with
        | .error e2 => ([.handlerInvoked, .errorRenderCalled], .error e2)
        | .ok rendered =>
          ([.handlerInvoked, .errorRenderCalled],
            .ok (.html (make_html response rendered)))
    | .ok result =>
      match hx_request with
      | none =>
        ([.handlerInvoked],
          .ok (match result with
            | .resp r => .passthrough r
            | .val v => .data v))
      | some req =>
        match result with
        | .resp r => ([.handlerInvoked], .ok (.passthrough r))
        | .val v =>
          let response := get_response kwargs
          match render v kwargs req with
          | .error e2 => ([.handlerInvoked, .renderCalled], .error e2)
          | .ok rendered =>
            ([.handlerInvoked, .renderCalled],
              .ok (.html (make_html response rendered)))

/-- The wrapper produced by `hx(..., stream=True)`. Identical control flow
to `hx_wrapper`, but the renderer is invoked synchronously and its chunk
iterator is wrapped unconsumed in a `StreamingResponse` with media type
`text/html`. -/
def hx_wrapper_stream (render : StreamingRenderFn) (render_error : Option StreamingErrorRenderFn)
    (no_data : Bool) (hx_request : Option Request) (handler : Except Exc RouteResult)
    (kwargs : Kwargs) : List Event × Except Exc HxOutput :=
  if no_data && hx_request.isNone then
    ([], .error hx_no_data_error)
  else
    match handler with
    | .error e =>
      match render_error, hx_request with
      | none, _ => ([.handlerInvoked], .error e)
      | some _, none => ([.handlerInvoked], .error e)
      | some re, some req =>
        let response := get_response kwargs
        match re e kwargs req with
        | .error e2 => ([.handlerInvoked, .errorRenderCalled], .error e2)
        | .ok chunks =>
          ([.handlerInvoked, .errorRenderCalled],
            .ok (.streaming (make_streaming response chunks)))
    | .ok result =>
      match hx_request with
      | none =>
        ([.handlerInvoked],
          .ok (match result with
            | .resp r => .passthrough r
            | .val v => .data v))
      | some req =>
        match result with
        | .resp r => ([.handlerInvoked], .ok (.passthrough r))
        | .val v =>
          let response := get_response kwargs
          match render v kwargs req with
          | .error e2 => ([.handlerInvoked, .renderCalled], .error e2)
          | .ok chunks =>
            ([.handlerInvoked, .renderCalled],
              .ok (.streaming (make_streaming response chunks)))

/-- The wrapper produced by the `page()` decorator (buffered mode):
rendering is unconditional, there is no classification and no `no_data`
flag; everything else matches `hx_wrapper`. -/
def page_wrapper (render : RenderFn) (render_error : Option ErrorRenderFn)
    (page_request : Request) (handler : Except Exc RouteResult) (kwargs : Kwargs) :
    List Event × Except Exc HxOutput :=
  match handler with
  | .error e =>
    match render_error with
    | none => ([.handlerInvoked], .error e)
    | some re =>
      let response := get_response kwargs
      match re e kwargs page_request with
      | .error e2 => ([.handlerInvoked, .errorRenderCalled], .error e2)
      | .ok rendered =>
        ([.handlerInvoked, .errorRenderCalled],
          .ok (.html (make_html response rendered)))
  | .ok result =>
    match result with
    | .resp r => ([.handlerInvoked], .ok (.passthrough r))
    | .val v =>
      let response := get_response kwargs
      match render v kwargs page_request with
      | .error e2 => ([.handlerInvoked, .renderCalled], .error e2)
      | .ok rendered =>
        ([.handlerInvoked, .renderCalled],
          .ok (.html (make_html response rendered)))

/-- The wrapper produced by `page(..., stream=True)`. -/
def page_wrapper_stream (render : StreamingRenderFn)
    (render_error : Option StreamingErrorRenderFn) (page_request : Request)
    (handler : Except Exc RouteResult) (kwargs : Kwargs) :
    List Event × Except Exc HxOutput :=
  match handler with
  | .error e =>
    match render_error with
    | none => ([.handlerInvoked], .error e)
    | some re =>
      let response := get_response kwargs
      match re e kwargs page_request with
      | .error e2 => ([.handlerInvoked, .errorRenderCalled], .error e2)
      | .ok chunks =>
        ([.handlerInvoked, .errorRenderCalled],
          .ok (.streaming (make_streaming response chunks)))
  | .ok result =>
    match result with
    | .resp r => ([.handlerInvoked], .ok (.passthrough r))
    | .val v =>
      let response := get_response kwargs
      match render v kwargs page_request with
      | .error e2 => ([.handlerInvoked, .renderCalled], .error e2)
      | .ok chunks =>
        ([.handlerInvoked, .renderCalled],
          .ok (.streaming (make_streaming response chunks)))

/-- The transport layer's view of a wrapper run: only once a response
object has been returned does the transport start the HTTP response and
consume the chunk stream; a raised exception yields no response and no
chunks. -/
def consume_streaming (out : List Event × Except Exc HxOutput) : List Event :=
  match out with
  | (tr, .ok (.streaming s)) => tr ++ [.responseReturned] ++ s.stream.map Event.chunkEmitted
  | (tr, .ok _) => tr ++ [.responseReturned]
  | (tr, .error _) => tr

/-! ### Component selectors (`fasthx.component_selectors`) -/

/-- `fasthx.component_selectors.ComponentHeader`: a header-keyed component
selector. `components` maps keys to component factories, `error` is the
optional accepted-error filter (an exception type or tuple of types,
modelled as a list of classes), `default` the optional fallback and
`case_sensitive` the key-matching mode. -/
structure ComponentHeader (T : Type) where
  header : String
  components : List (String × T)
  error : Option (List ExcClass) := none
  default : Option T := none
  case_sensitive : Bool := false

/-- `ComponentHeader.__post_init__`: unless `case_sensitive` is set, the
`components` dictionary is rebuilt with lowercased keys (a dict
comprehension, so later colliding keys overwrite earlier ones). -/
def ComponentHeader.postInit {T : Type} (c : ComponentHeader T) : ComponentHeader T :=
  if c.case_sensitive then c
  else { c with components := dictOfList (c.components.map (fun kv => (pyLower kv.1, kv.2))) }

/-- The header lookup part of `ComponentHeader.get_component`: read the
designated header; if present, normalize case per configuration and index
the `components` dictionary (`KeyError` on a miss); if absent, return the
default or raise `KeyError` when there is none. -/
def ComponentHeader.headerLookup {T : Type} (self : ComponentHeader T) (request : Request) :
    Except Exc T :=
  match request.headers self.header with
  | some key =>
    let key := if !self.case_sensitive then pyLower key else key
    match dictGet self.components key with
    | some v => .ok v
    | none => .error (.mk .keyError key none none)
  | none =>
    match self.default with
    | none => .error (.mk .keyError "Default component factory was not set and header was not found." none none)
    | some d => .ok d

/-- `ComponentHeader.get_component`: if an error is passed and either no
accepted-error filter is configured or the error is not an instance of it,
re-raise the error unchanged; otherwise perform the header lookup. -/
def ComponentHeader.get_component {T : Type} (self : ComponentHeader T) (request : Request)
    (error : Option Exc) : Except Exc T :=
  match error with
  | some e =>
    if self.error.isNone || !e.isinstanceOf (self.error.getD []) then .error e
    else self.headerLookup request
  | none => self.headerLookup request

/-- An implementation of the `RequestComponentSelector` protocol: either
the repository's concrete header-keyed selector, or an arbitrary
user-supplied implementation (any function of the request and the optional
error). -/
inductive RequestSelector (T : Type) where
  | headerSel (h : ComponentHeader T)
  | custom (f : Request → Option Exc → Except Exc T)

/-- Protocol dispatch for `get_component`. -/
def RequestSelector.get_component {T : Type} (s : RequestSelector T) (request : Request)
    (error : Option Exc) : Except Exc T :=
  match s with
  | .headerSel h => h.get_component request error
  | .custom f => f request error

/-- `fasthx.typing.ComponentSelector`: either a constant render target or a
`RequestComponentSelector` implementation. -/
inductive CSelector (T : Type) where
  | const (t : T)
  | requestSel (s : RequestSelector T)

/-- Resolution of a `ComponentSelector` against a request: request-driven
selectors go through `get_component`, a constant selector is its own
target (the `isinstance(..., RequestComponentSelector)` dispatch in the
source). -/
def CSelector.resolve {T : Type} (sel : CSelector T) (request : Request) (error : Option Exc) :
    Except Exc T :=
  match sel with
  | .const t => .ok t
  | .requestSel s => s.get_component request error

/-! ### The Jinja adapter (`fasthx.jinja`) -/

/-- A Python string as used for Jinja template names: `isJinjaPath` marks
instances of the `JinjaPath` `str` subclass, which are exempt from
prefixing. -/
structure JinjaStr where
  val : String
  isJinjaPath : Bool := false
  deriving DecidableEq, Repr

/-- `fasthx.jinja.TemplateHeader` is the same implementation as
`ComponentHeader` with string-valued targets (same `__post_init__`, same
`get_component` logic), so it is embedded through the same structure. The
only textual difference in the source is the message of the
missing-default `KeyError` ("Default template was not set..." instead of
"Default component factory was not set..."), on which nothing here
depends. -/
abbrev TemplateHeader := ComponentHeader JinjaStr

/-- `Jinja._resolve_template_name`: resolve the template selector (passing
the route error along), converting a `KeyError` raised by resolution into
`ValueError("Failed to resolve template name from request.")` with the
`KeyError` as its cause; then apply the optional prefix, which is skipped
for `JinjaPath` results, after stripping leading slashes (an empty or
absent prefix leaves the name bare). -/
def Jinja.resolve_template_name (template : CSelector JinjaStr) (error : Option Exc)
    (pfx : Option String) (request : Request) : Except Exc String :=
  let applyPfx : JinjaStr → String := fun result =>
    let p := if result.isJinjaPath then none else pfx
    let r := result.val.dropWhile (· == '/')
    match p with
    | none => r
    | some p => if p = "" then r else p ++ "/" ++ r
  match template with
  | .requestSel sel =>
    match sel.get_component request error with
    | .error e =>
      if e.cls.isSubclass .keyError then
        .error (.mk .valueError "Failed to resolve template name from request." none (some e))
      else .error e
    | .ok result => .ok (applyPfx result)
  | .const s => .ok (applyPfx s)

/-- The argument a render function receives as `result`: the route's value
on the success path, the raised exception on the error path. -/
inductive RouteArg where
  | val (v : PyVal)
  | exc (e : Exc)

/-- A `JinjaContextFactory` as the render closure sees it (it may raise,
e.g. `ValueError` from the unpacking rules). -/
abbrev ContextFactory := RouteArg → Kwargs → Except Exc (List (String × PyVal))

/-- The render closure created by `Jinja._make_render_function`: resolve
the template name first (forwarding `result` as the error when this is an
error renderer), then build the Jinja context, then render the template
(`engine` abstracts `Jinja2Templates` rendering). The event list records
which of the two later stages ran. -/
def Jinja.render_fn (template : CSelector JinjaStr) (make_context : ContextFactory)
    (pfx : Option String) (error_renderer : Bool)
    (engine : String → List (String × PyVal) → String) (result : RouteArg) (context : Kwargs)
    (request : Request) : List Event × Except Exc String :=
  let err : Option Exc :=
    if error_renderer then
      match result with
      | .exc e => some e
      | .val _ => none
    else none
  match Jinja.resolve_template_name template err pfx request with
  | .error e => ([], .error e)
  | .ok name =>
    match make_context result context with
    | .error e => ([.contextBuilt], .error e)
    | .ok ctx => ([.contextBuilt, .templateRendered], .ok (engine name ctx))

/-! ### The HTMY adapter's streaming render function (`fasthx.htmy`) -/

/-- The streaming render function created by `HTMY._make_render_function`:
a synchronous function that resolves the component selector *before*
returning the (unconsumed) chunk iterator, so that selector errors are
raised before streaming begins. `stream_fn` abstracts
`streaming_renderer.stream(component(result), context)`. -/
def htmy_streaming_render {C : Type} (component_selector : CSelector C)
    (stream_fn : C → PyVal → Kwargs → Request → List String) (result : PyVal)
    (context : Kwargs) (request : Request) : Except Exc (List String) :=
  match component_selector.resolve request none with
  | .error e => .error e
  | .ok comp => .ok (stream_fn comp result context request)

/-! ### Heap-level refinement of the Jinja context factories

Object identity and in-place mutation of dictionaries are invisible to the
pure embedding above, so `JinjaContext.unpack_object` and
`JinjaContext.unpack_result_with_route_context` are additionally embedded
against an explicit heap of dictionary cells: a Python dictionary is a
reference (`RVal.ref`) into the heap, and `dict.update` mutates the
referenced cell. -/

/-- Python values in the heap model: dictionaries are references into the
heap; the remaining shapes mirror `PyVal`. -/
inductive RVal where
  | ref (r : Nat)
  | list (xs : List RVal)
  | obj (attrs : List (String × RVal))
  | slotsObj (attrs : List (String × RVal))
  | rnone
  | rint (n : Int)

/-- A heap of dictionary cells; a reference is an index into `cells`. -/
structure Heap where
  cells : List (List (String × RVal))

/-- Dereference a dictionary cell. -/
def Heap.get (h : Heap) (r : Nat) : List (String × RVal) :=
  h.cells.getD r []

/-- Overwrite a dictionary cell in place. -/
def Heap.set (h : Heap) (r : Nat) (d : List (String × RVal)) : Heap :=
  ⟨h.cells.set r d⟩

/-- Allocate a fresh dictionary cell. -/
def Heap.alloc (h : Heap) (d : List (String × RVal)) : Nat × Heap :=
  (h.cells.length, ⟨h.cells ++ [d]⟩)

/-- `JinjaContext.unpack_object` over the heap: a `dict` argument is
returned *as is* (the same reference, no copy); every other convertible
shape allocates a fresh dictionary; unconvertible values raise
`ValueError`. -/
def unpack_object_h (h : Heap) : RVal → Except Exc (Nat × Heap)
  | .ref r => .ok (r, h)
  | .list xs => .ok (h.alloc [("items", .list xs)])
  | .obj attrs => .ok (h.alloc (attrs.filter (fun kv => !kv.1.startsWith "_")))
  | .slotsObj attrs => .ok (h.alloc (attrs.filter (fun kv => !kv.1.startsWith "_")))
  | .rnone => .ok (h.alloc [])
  | .rint _ => .error (.mk .valueError "Result conversion failed, unknown result type." none none)

/-- `JinjaContext.unpack_result_with_route_context` over the heap: unpack
the route result, fail with `ValueError` if its keys overlap the route
context's keys, and otherwise *update the route context dictionary in
place* (`route_context.update(result)`) and return that same reference —
deliberately not `result`, which might be the very object the route
returned. -/
def unpack_result_with_route_context_h (h : Heap) (route_result : RVal) (rcRef : Nat) :
    Except Exc (Nat × Heap) :=
  match unpack_object_h h route_result with
  | .error e => .error e
  | .ok (resRef, h1) =>
    let result := h1.get resRef
    let route_context := h1.get rcRef
    if (dictKeys result).any (fun k => (dictKeys route_context).contains k) then
      .error (.mk .valueError "Overlapping keys in route result and route context." none none)
    else
      .ok (rcRef, h1.set rcRef (dictUpdate route_context result))

/-! ### Derived predicates and concrete sample inputs -/

/-- Whether a computation failed with a `LookupError` (of any subclass). -/
def isLookupErrorResult {T : Type} : Except Exc T → Bool
  | .error e => e.cls.isSubclass .lookupError
  | .ok _ => false

/-- Response assembly contract of one wrapper run: every assembled
(buffered or streaming) response carries the side-channel response's
status code when one is set (and nonzero), 200 when there is no
side-channel response or its status code is unset, and the side-channel
response's headers and background-task reference. -/
def respects_side_channel (kwargs : Kwargs) (out : List Event × Except Exc HxOutput) : Prop :=
  (∀ h, out.2 = .ok (.html h) →
      h.headers = response_headers (get_response kwargs)
    ∧ h.background = response_background (get_response kwargs)
    ∧ (get_response kwargs = none → h.status_code = 200)
    ∧ (∀ r, get_response kwargs = some r → r.status_code = none → h.status_code = 200)
    ∧ (∀ r n, get_response kwargs = some r → r.status_code = some n → n ≠ 0 → h.status_code = n))
  ∧ (∀ s, out.2 = .ok (.streaming s) →
      s.headers = response_headers (get_response kwargs)
    ∧ s.background = response_background (get_response kwargs)
    ∧ (get_response kwargs = none → s.status_code = 200)
    ∧ (∀ r, get_response kwargs = some r → r.status_code = none → s.status_code = 200)
    ∧ (∀ r n, get_response kwargs = some r → r.status_code = some n → n ≠ 0 → s.status_code = n))

/-- A request carrying `HX-Request: true` and nothing else. -/
def demoHxRequest : Request :=
  ⟨fun h => if h = "hx-request" then some "true" else none⟩

/-- A request with no headers at all. -/
def demoPlainRequest : Request :=
  ⟨fun _ => none⟩

/-- A request carrying an `X-Component: fOO` header. -/
def demoComponentRequest : Request :=
  ⟨fun h => if h = "x-component" then some "fOO" else none⟩

/-- A sample render function. -/
def demoRender : RenderFn :=
  fun _ _ _ => .ok "<p>ok</p>"

/-- A sample streaming render function. -/
def demoStreamRender : StreamingRenderFn :=
  fun _ _ _ => .ok ["<p>", "ok", "</p>"]

/-- A sample error render function (always renders). -/
def demoErrRender : ErrorRenderFn :=
  fun _ _ _ => .ok "<err/>"

/-- A sample streaming error render function. -/
def demoStreamErrRender : StreamingErrorRenderFn :=
  fun _ _ _ => .ok ["<err/>"]

/-- A sample user-defined route exception (the tests' `RenderedError`
pattern: the handler sets the side-channel status before raising). -/
def demoErrExc : Exc :=
  .mk (.userDefined 0) "Data validation failed." none none

/-- A sample `IndexError` (a `LookupError` that is not a `KeyError`). -/
def demoIndexError : Exc :=
  .mk .indexError "0" none none

/-- Keyword arguments holding a side-channel response whose status code the
handler set to 456 and which carries a `test-header`. -/
def demoKwargs456 : Kwargs :=
  [("response", .resp { status_code := some 456, headers := [("test-header", "exists")] })]

/-- A header-keyed template selector with one template, no default and no
accepted-error filter. -/
def demoTemplateHeader : TemplateHeader :=
  { header := "x-template", components := [("a", { val := "a.html" })] }

/-- A header-keyed component selector with an empty component table and no
default, so that resolution always fails for requests carrying the
header. -/
def demoEmptyComponentHeader : ComponentHeader Nat :=
  { header := "x-component", components := [] }

/-- A trivial context factory. -/
def demoCtxFactory : ContextFactory :=
  fun _ _ => .ok []

/-- A trivial template engine: renders the template name itself. -/
def demoEngine : String → List (String × PyVal) → String :=
  fun name _ => name

/-- A sample two-cell heap: cell 0 (the route context) holds `a ↦ 1`, cell
1 (the dictionary the route returned) holds `b ↦ 2`. -/
def demoHeap : Heap :=
  ⟨[[("a", .rint 1)], [("b", .rint 2)]]⟩

/-- `demoHeap` after merging cell 1 into cell 0 in place. -/
def demoHeapAfter : Heap :=
  ⟨[[("a", .rint 1), ("b", .rint 2)], [("b", .rint 2)]]⟩

/-! ### Dictionary lemmas -/

theorem dictGet_eq_some_of_nodup {α : Type} (l : List (String × α)) (k : String) (t : α)
    (hnd : (dictKeys l).Nodup) (hmem : (k, t) ∈ l) : dictGet l k = some t := by
  induction l with
  | nil => cases hmem
  | cons p tl ih =>
    simp only [dictKeys, List.map_cons, List.nodup_cons] at hnd
    rcases List.mem_cons.mp hmem with hp | hp
    · subst hp
      simp [dictGet, List.find?]
    · have hk : k ∈ tl.map Prod.fst := List.mem_map_of_mem Prod.fst hp
      have hne : p.1 ≠ k := fun h => hnd.1 (h ▸ hk)
      have : (p.1 == k) = false := by simpa using hne
      simp only [dictGet, List.find?]
      rw [this]
      exact ih hnd.2 hp

theorem dictGet_eq_none_of_forall {α : Type} (l : List (String × α)) (k : String)
    (h : ∀ p ∈ l, p.1 ≠ k) : dictGet l k = none := by
  have hf : List.find? (fun kv => kv.1 == k) l = none := by
    rw [List.find?_eq_none]
    intro p hp
    simpa using h p hp
  simp [dictGet, hf]

theorem dictSet_eq_append {α : Type} (d : List (String × α)) (k : String) (v : α)
    (h : ∀ p ∈ d, p.1 ≠ k) : dictSet d k v = d ++ [(k, v)] := by
  have hany : d.any (fun kv => kv.1 == k) = false := by
    rw [List.any_eq_false]
    intro p hp
    simpa using h p hp
  simp [dictSet, hany]

theorem foldl_dictSet_eq_append {α : Type} (l : List (String × α)) :
    ∀ acc : List (String × α), (∀ p ∈ l, p.1 ∉ dictKeys acc) → (dictKeys l).Nodup →
      l.foldl (fun a kv => dictSet a kv.1 kv.2) acc = acc ++ l := by
  induction l with
  | nil => intro acc _ _; simp
  | cons p tl ih =>
    intro acc hdis hnd
    simp only [dictKeys, List.map_cons, List.nodup_cons] at hnd
    have hstep : dictSet acc p.1 p.2 = acc ++ [p] := by
      rw [dictSet_eq_append]
      intro q hq hqe
      exact hdis p (List.mem_cons_self p tl) (hqe ▸ List.mem_map_of_mem Prod.fst hq)
    simp only [List.foldl_cons, hstep]
    rw [ih (acc ++ [p]) ?_ hnd.2]
    · simp
    · intro q hq
      simp only [dictKeys, List.map_append, List.mem_append]
      rintro (hmem | hmem)
      · exact hdis q (List.mem_cons_of_mem p hq) hmem
      · simp only [List.map_cons, List.map_nil, List.mem_singleton] at hmem
        exact hnd.1 (hmem ▸ List.mem_map_of_mem Prod.fst hq)

theorem dictOfList_eq_self {α : Type} (l : List (String × α)) (hnd : (dictKeys l).Nodup) :
    dictOfList l = l := by
  have := foldl_dictSet_eq_append l [] (by simp [dictKeys]) hnd
  simpa [dictOfList] using this

theorem mem_dictKeys_dictSet {α : Type} (d : List (String × α)) (k : String) (v : α) :
    ∀ k', k' ∈ dictKeys (dictSet d k v) → k' ∈ dictKeys d ∨ k' = k := by
  intro k' hk
  simp only [dictSet] at hk
  split at hk
  · simp only [dictKeys, List.map_map, List.mem_map, Function.comp_apply] at hk
    obtain ⟨p, hp, hpe⟩ := hk
    by_cases hc : (p.1 == k) = true
    · rw [if_pos hc] at hpe
      exact Or.inr hpe.symm
    · rw [if_neg hc] at hpe
      refine Or.inl ?_
      simp only [dictKeys, List.mem_map]
      exact ⟨p, hp, hpe⟩
  · simp only [dictKeys, List.map_append, List.mem_append, List.map_cons, List.map_nil,
      List.mem_singleton] at hk
    rcases hk with hk | hk
    · exact Or.inl hk
    · exact Or.inr hk

theorem mem_dictKeys_dictOfList {α : Type} (l : List (String × α)) :
    ∀ k', k' ∈ dictKeys (dictOfList l) → k' ∈ dictKeys l := by
  suffices h : ∀ acc : List (String × α),
      ∀ k', k' ∈ dictKeys (l.foldl (fun a kv => dictSet a kv.1 kv.2) acc) →
        k' ∈ dictKeys acc ∨ k' ∈ dictKeys l by
    intro k' hk
    rcases h [] k' hk with hc | hc
    · simp [dictKeys] at hc
    · exact hc
  induction l with
  | nil => intro acc k' hk; exact Or.inl hk
  | cons p tl ih =>
    intro acc k' hk
    simp only [List.foldl_cons] at hk
    rcases ih (dictSet acc p.1 p.2) k' hk with hc | hc
    · rcases mem_dictKeys_dictSet acc p.1 p.2 k' hc with hc2 | hc2
      · exact Or.inl hc2
      · right
        simp [dictKeys, hc2]
    · right
      simp only [dictKeys, List.map_cons, List.mem_cons]
      exact Or.inr hc

/-! ### Heap lemmas -/

theorem Heap.get_set_self (h : Heap) (r : Nat) (d : List (String × RVal))
    (hr : r < h.cells.length) : (h.set r d).get r = d := by
  simp [Heap.get, Heap.set, List.getD_eq_getElem?_getD, List.getElem?_set_self hr]

theorem Heap.get_set_ne (h : Heap) (r r' : Nat) (d : List (String × RVal))
    (hne : r' ≠ r) : (h.set r d).get r' = h.get r' := by
  simp [Heap.get, Heap.set, List.getD_eq_getElem?_getD, List.getElem?_set_ne (Ne.symm hne)]

theorem unpack_object_h_frame (h : Heap) (rv : RVal) (r2 : Nat) (h1 : Heap)
    (hu : unpack_object_h h rv = .ok (r2, h1)) :
    h.cells.length ≤ h1.cells.length ∧ ∀ i, i < h.cells.length → h1.get i = h.get i := by
  cases rv with
  | ref r =>
    simp only [unpack_object_h, Except.ok.injEq, Prod.mk.injEq] at hu
    rw [← hu.2]
    exact ⟨le_rfl, fun _ _ => rfl⟩
  | list xs =>
    simp only [unpack_object_h, Heap.alloc, Except.ok.injEq, Prod.mk.injEq] at hu
    rw [← hu.2]
    refine ⟨by simp, fun i hi => ?_⟩
    simp [Heap.get, List.getD_eq_getElem?_getD, List.getElem?_append_left hi]
  | obj attrs =>
    simp only [unpack_object_h, Heap.alloc, Except.ok.injEq, Prod.mk.injEq] at hu
    rw [← hu.2]
    refine ⟨by simp, fun i hi => ?_⟩
    simp [Heap.get, List.getD_eq_getElem?_getD, List.getElem?_append_left hi]
  | slotsObj attrs =>
    simp only [unpack_object_h, Heap.alloc, Except.ok.injEq, Prod.mk.injEq] at hu
    rw [← hu.2]
    refine ⟨by simp, fun i hi => ?_⟩
    simp [Heap.get, List.getD_eq_getElem?_getD, List.getElem?_append_left hi]
  | rnone =>
    simp only [unpack_object_h, Heap.alloc, Except.ok.injEq, Prod.mk.injEq] at hu
    rw [← hu.2]
    refine ⟨by simp, fun i hi => ?_⟩
    simp [Heap.get, List.getD_eq_getElem?_getD, List.getElem?_append_left hi]
  | rint n => simp [unpack_object_h] at hu

theorem dictKeys_map_toLower {α : Type} (l : List (String × α)) :
    dictKeys (l.map (fun kv => (pyLower kv.1, kv.2))) = (dictKeys l).map pyLower := by
  simp [dictKeys, List.map_map]

/-! ### Response assembly glue -/

theorem respects_side_channel_intro (kwargs : Kwargs) (out : List Event × Except Exc HxOutput)
    (hh : ∀ h, out.2 = .ok (.html h) →
        h.status_code = response_status (get_response kwargs)
      ∧ h.headers = response_headers (get_response kwargs)
      ∧ h.background = response_background (get_response kwargs))
    (hs : ∀ s, out.2 = .ok (.streaming s) →
        s.status_code = response_status (get_response kwargs)
      ∧ s.headers = response_headers (get_response kwargs)
      ∧ s.background = response_background (get_response kwargs)) :
    respects_side_channel kwargs out := by
  constructor
  · intro h hout
    obtain ⟨h1, h2, h3⟩ := hh h hout
    refine ⟨h2, h3, ?_, ?_, ?_⟩
    · intro hn; rw [h1, hn]; rfl
    · intro r hr hn; rw [h1, hr]; simp [response_status, hn]
    · intro r n hr hn hnz; rw [h1, hr]; simp [response_status, hn, hnz]
  · intro s hout
    obtain ⟨h1, h2, h3⟩ := hs s hout
    refine ⟨h2, h3, ?_, ?_, ?_⟩
    · intro hn; rw [h1, hn]; rfl
    · intro r hr hn; rw [h1, hr]; simp [response_status, hn]
    · intro r n hr hn hnz; rw [h1, hr]; simp [response_status, hn, hnz]

/-! ### Claims -/

/-- C6: `JinjaContext.unpack_object` passes a plain dictionary through
unchanged, wraps every other collection (lists and also strings) as an
`items`-keyed context, unpacks `__dict__`/`__slots__` objects into exactly
their attributes whose names do not start with an underscore, turns `None`
into the empty context, and fails with `ValueError` on any value matching
none of these rules. -/
theorem unpack_object_conversion_rules :
    (∀ entries, unpack_object (.pydict entries) = .ok entries)
  ∧ (∀ elems, unpack_object (.pylist elems) = .ok [("items", .pylist elems)])
  ∧ (∀ s, unpack_object (.pystr s) = .ok [("items", .pystr s)])
  ∧ (∀ attrs, unpack_object (.pyobj attrs) =
      .ok (attrs.filter (fun kv => !kv.1.startsWith "_")))
  ∧ (∀ attrs, unpack_object (.pyslots attrs) =
      .ok (attrs.filter (fun kv => !kv.1.startsWith "_")))
  ∧ (∀ (attrs : List (String × PyVal)) (k : String) (t : PyVal),
      (k, t) ∈ attrs.filter (fun kv => !kv.1.startsWith "_") ↔
      ((k, t) ∈ attrs ∧ ¬k.startsWith "_" = true))
  ∧ unpack_object .pynone = .ok []
  ∧ (∀ n, unpack_object (.pyint n) =
      .error (.mk .valueError "Result conversion failed, unknown result type." none none)) := by
  refine ⟨fun _ => rfl, fun _ => rfl, fun _ => rfl, fun _ => rfl, fun _ => rfl, ?_, rfl, fun _ => rfl⟩
  intro attrs k t
  simp [List.mem_filter]

/-- C5: a header-keyed selector that receives a non-`None` error re-raises
exactly that error object whenever no accepted-error filter is configured
or the error is not an instance of the filter; consequently the Jinja error
rendering path built on such a selector performs no context building and no
template rendering for a rejected error (the error renderer is never
invoked with an error its filter did not accept). -/
theorem error_filter_reraise {T : Type} (sel : ComponentHeader T) (selJ : TemplateHeader)
    (request : Request) (e : Exc) (mc : ContextFactory) (pfx : Option String)
    (engine : String → List (String × PyVal) → String) (context : Kwargs)
    (hrej : sel.error = none ∨ e.isinstanceOf (sel.error.getD []) = false)
    (hrejJ : selJ.error = none ∨ e.isinstanceOf (selJ.error.getD []) = false) :
    sel.get_component request (some e) = .error e
  ∧ (Jinja.render_fn (.requestSel (.headerSel selJ)) mc pfx true engine (.exc e)
      context request).1 = []
  ∧ ∀ s, (Jinja.render_fn (.requestSel (.headerSel selJ)) mc pfx true engine (.exc e)
      context request).2 ≠ .ok s := by
  have main : ∀ {U : Type} (c : ComponentHeader U),
      (c.error = none ∨ e.isinstanceOf (c.error.getD []) = false) →
      c.get_component request (some e) = .error e := by
    intro U c hc
    unfold ComponentHeader.get_component
    rcases hc with hc | hc
    · simp [hc]
    · simp [hc]
  have hres := main selJ hrejJ
  refine ⟨main sel hrej, ?_, ?_⟩
  · by_cases hke : e.cls.isSubclass ExcClass.keyError = true <;>
      simp [Jinja.render_fn, Jinja.resolve_template_name, RequestSelector.get_component,
        hres, hke]
  · intro s
    by_cases hke : e.cls.isSubclass ExcClass.keyError = true <;>
      simp [Jinja.render_fn, Jinja.resolve_template_name, RequestSelector.get_component,
        hres, hke]

/-- C5 witness: a selector with no accepted-error filter re-raises a
sample route error, and the Jinja error render path records no rendering
events for it. -/
theorem error_filter_reraise_witness :
    demoEmptyComponentHeader.get_component demoPlainRequest (some demoErrExc) = .error demoErrExc
  ∧ (Jinja.render_fn (.requestSel (.headerSel demoTemplateHeader)) demoCtxFactory none true
      demoEngine (.exc demoErrExc) [] demoPlainRequest).1 = [] :=
  let h := error_filter_reraise demoEmptyComponentHeader demoTemplateHeader demoPlainRequest
    demoErrExc demoCtxFactory none demoEngine [] (Or.inl rfl) (Or.inl rfl)
  ⟨h.1, h.2.1⟩

/-- C4: resolution of a header-keyed selector without an error. With the
default case-insensitive configuration a present header value resolves to
the mapping entry whose key agrees with it up to case (both sides are
lowercased), resolution depends only on the lowercased header value, and an
unknown (normalized) key fails with a `LookupError`. With `case_sensitive`
the lookup is exact and a miss (for example a pure case mismatch) fails
with a `LookupError`. An absent header resolves to the configured default,
and fails with a `LookupError` when no default is configured. -/
theorem component_header_resolution {T : Type} (hname : String) (comps : List (String × T))
    (dflt : Option T) (request : Request) :
    (∀ v k t, request.headers hname = some v → (k, t) ∈ comps → pyLower k = pyLower v →
      ((dictKeys comps).map pyLower).Nodup →
      (ComponentHeader.postInit ⟨hname, comps, none, dflt, false⟩).get_component request none =
        .ok t)
  ∧ (∀ req2 v v2, request.headers hname = some v → req2.headers hname = some v2 →
      pyLower v = pyLower v2 →
      (ComponentHeader.postInit ⟨hname, comps, none, dflt, false⟩).get_component request none =
        (ComponentHeader.postInit ⟨hname, comps, none, dflt, false⟩).get_component req2 none)
  ∧ (∀ v, request.headers hname = some v → (∀ k ∈ dictKeys comps, pyLower k ≠ pyLower v) →
      isLookupErrorResult
        ((ComponentHeader.postInit ⟨hname, comps, none, dflt, false⟩).get_component
          request none) = true)
  ∧ (∀ v t, request.headers hname = some v → (dictKeys comps).Nodup → (v, t) ∈ comps →
      (ComponentHeader.postInit ⟨hname, comps, none, dflt, true⟩).get_component request none =
        .ok t)
  ∧ (∀ v, request.headers hname = some v → (∀ p ∈ comps, p.1 ≠ v) →
      isLookupErrorResult
        ((ComponentHeader.postInit ⟨hname, comps, none, dflt, true⟩).get_component
          request none) = true)
  ∧ (∀ cs d, request.headers hname = none → dflt = some d →
      (ComponentHeader.postInit ⟨hname, comps, none, dflt, cs⟩).get_component request none =
        .ok d)
  ∧ (∀ cs, request.headers hname = none → dflt = none →
      isLookupErrorResult
        ((ComponentHeader.postInit ⟨hname, comps, none, dflt, cs⟩).get_component
          request none) = true) := by
  refine ⟨?_, ?_, ?_, ?_, ?_, ?_, ?_⟩
  · intro v k t hv hmem hkl hnd
    have hnd2 : (dictKeys (comps.map (fun kv => (pyLower kv.1, kv.2)))).Nodup := by
      rw [dictKeys_map_toLower]; exact hnd
    have hself := dictOfList_eq_self _ hnd2
    have hmem2 : (pyLower v, t) ∈ comps.map (fun kv => (pyLower kv.1, kv.2)) := by
      have hm : (pyLower k, t) ∈ comps.map (fun kv => (pyLower kv.1, kv.2)) := by
        simpa using List.mem_map_of_mem (fun kv : String × T => (pyLower kv.1, kv.2)) hmem
      rw [hkl] at hm
      exact hm
    have hget : dictGet (dictOfList (comps.map (fun kv => (pyLower kv.1, kv.2)))) (pyLower v) =
        some t := by
      rw [hself]
      exact dictGet_eq_some_of_nodup _ _ _ hnd2 hmem2
    simp [ComponentHeader.postInit, ComponentHeader.get_component, ComponentHeader.headerLookup,
      hv, hget]
  · intro req2 v v2 hv hv2 hvv
    simp [ComponentHeader.postInit, ComponentHeader.get_component,
      ComponentHeader.headerLookup, hv, hv2, hvv]
  · intro v hv hmiss
    have hget : dictGet (dictOfList (comps.map (fun kv => (pyLower kv.1, kv.2)))) (pyLower v) =
        none := by
      apply dictGet_eq_none_of_forall
      intro p hp
      have hpk : p.1 ∈ dictKeys (dictOfList (comps.map (fun kv => (pyLower kv.1, kv.2)))) :=
        List.mem_map_of_mem _ hp
      have := mem_dictKeys_dictOfList _ _ hpk
      rw [dictKeys_map_toLower] at this
      obtain ⟨k, hk, hke⟩ := List.mem_map.mp this
      rw [← hke]
      exact hmiss k hk
    simp [ComponentHeader.postInit, ComponentHeader.get_component, ComponentHeader.headerLookup,
      hv, hget, isLookupErrorResult, Exc.cls, ExcClass.isSubclass, ExcClass.ancestors]
  · intro v t hv hnd hmem
    have hget := dictGet_eq_some_of_nodup comps v t hnd hmem
    simp [ComponentHeader.postInit, ComponentHeader.get_component, ComponentHeader.headerLookup,
      hv, hget]
  · intro v hv hmiss
    have hget := dictGet_eq_none_of_forall comps v hmiss
    simp [ComponentHeader.postInit, ComponentHeader.get_component, ComponentHeader.headerLookup,
      hv, hget, isLookupErrorResult, Exc.cls, ExcClass.isSubclass, ExcClass.ancestors]
  · intro cs d hv hd
    cases cs <;>
      simp [ComponentHeader.postInit, ComponentHeader.get_component,
        ComponentHeader.headerLookup, hv, hd]
  · intro cs hv hd
    cases cs <;>
      simp [ComponentHeader.postInit, ComponentHeader.get_component,
        ComponentHeader.headerLookup, hv, hd, isLookupErrorResult, Exc.cls,
        ExcClass.isSubclass, ExcClass.ancestors]

/-- C4 witness: with the default case-insensitive configuration, the header
value `fOO` resolves to the entry stored under the key `Foo`. -/
theorem component_header_resolution_witness :
    (ComponentHeader.postInit
      ⟨"x-component", [("Foo", (1 : Nat)), ("bar", 2)], none, none, false⟩).get_component
      demoComponentRequest none = .ok 1 :=
  (component_header_resolution "x-component" [("Foo", 1), ("bar", 2)] none
      demoComponentRequest).1
    "fOO" "Foo" 1 (by decide) (by decide) (by decide) (by decide)

/-- C1: for an `hx()` route whose handler returns a plain (non-`Response`)
value, a request classified as an HTMX one receives an `HTMLResponse`
whose body is exactly the render function's output for the handler result,
the route's keyword arguments and the request; a request not classified as
an HTMX one (with the `no_data` flag unset) receives the handler's result
unchanged, the trace shows no render call, and the output does not depend
on the render function at all. -/
theorem hx_wrapper_fragment_negotiation (render : RenderFn)
    (render_error : Option ErrorRenderFn) (no_data : Bool) (request : Request) (v : PyVal)
    (kwargs : Kwargs) (s : String) :
    (∀ req, get_hx_request request = some req → render v kwargs req = .ok s →
      (hx_wrapper render render_error no_data (get_hx_request request) (.ok (.val v))
          kwargs).2 =
        .ok (.html (make_html (get_response kwargs) s)))
  ∧ (get_hx_request request = none → no_data = false →
      hx_wrapper render render_error no_data (get_hx_request request) (.ok (.val v)) kwargs =
        ([.handlerInvoked], .ok (.data v))
    ∧ Event.renderCalled ∉
        (hx_wrapper render render_error no_data (get_hx_request request) (.ok (.val v))
          kwargs).1
    ∧ ∀ render2 : RenderFn,
        hx_wrapper render2 render_error no_data (get_hx_request request) (.ok (.val v))
          kwargs =
        hx_wrapper render render_error no_data (get_hx_request request) (.ok (.val v))
          kwargs) := by
  constructor
  · intro req hreq hrender
    simp [hx_wrapper, hreq, hrender, make_html]
  · intro hnone hnd
    refine ⟨?_, ?_, ?_⟩ <;> simp [hx_wrapper, hnone, hnd]

/-- C1 witness: a request with the HTMX marker gets the rendered HTML body,
and one without it gets the raw route value back. -/
theorem hx_wrapper_fragment_negotiation_witness :
    ((hx_wrapper demoRender none false (get_hx_request demoHxRequest)
        (.ok (.val (.pyint 5))) []).2 =
      .ok (.html (make_html (get_response []) "<p>ok</p>")))
  ∧ hx_wrapper demoRender none false (get_hx_request demoPlainRequest)
      (.ok (.val (.pyint 5))) [] = ([.handlerInvoked], .ok (.data (.pyint 5))) :=
  ⟨(hx_wrapper_fragment_negotiation demoRender none false demoHxRequest (.pyint 5) []
      "<p>ok</p>").1 demoHxRequest rfl rfl,
   ((hx_wrapper_fragment_negotiation demoRender none false demoPlainRequest (.pyint 5) []
      "<p>ok</p>").2 rfl rfl).1⟩

/-- C2 counterexample: the claim says the rejection response's body is
empty, but the `HTTPException` the wrapper raises carries the detail
message `This route can only process HTMX requests.`, which the host
framework's default handler serializes as a non-empty JSON body. -/
theorem hx_no_data_body_not_empty :
    (hx_wrapper demoRender none true none (.ok (.val (.pyint 1))) []).2 =
      .error hx_no_data_error
  ∧ hx_no_data_error.status = some 400
  ∧ fastapi_http_error_body hx_no_data_error ≠ "" :=
  ⟨rfl, rfl, by decide⟩

/-- C2 (amended): an `hx(no_data=True)` route rejects every request that is
not classified as an HTMX one by raising an `HTTPException` with status 400
and the detail `This route can only process HTMX requests.` (serialized by
the host framework as a non-empty JSON body); the handler is never invoked
and the outcome does not depend on it. -/
theorem hx_no_data_rejects_non_fragment (render : RenderFn)
    (render_error : Option ErrorRenderFn) (request : Request)
    (handler : Except Exc RouteResult) (kwargs : Kwargs)
    (hclass : request.headers "hx-request" ≠ some "true") :
    hx_wrapper render render_error true (get_hx_request request) handler kwargs =
      ([], .error hx_no_data_error)
  ∧ hx_no_data_error.status = some 400
  ∧ hx_no_data_error.detail = "This route can only process HTMX requests."
  ∧ Event.handlerInvoked ∉
      (hx_wrapper render render_error true (get_hx_request request) handler kwargs).1
  ∧ ∀ handler2 : Except Exc RouteResult,
      hx_wrapper render render_error true (get_hx_request request) handler2 kwargs =
        hx_wrapper render render_error true (get_hx_request request) handler kwargs := by
  have hnone : get_hx_request request = none := by simp [get_hx_request, hclass]
  refine ⟨?_, rfl, rfl, ?_, ?_⟩ <;> simp [hx_wrapper, hnone]

/-- C2 witness: the wrapper rejects a request without the HTMX marker. -/
theorem hx_no_data_rejects_non_fragment_witness :
    hx_wrapper demoRender none true (get_hx_request demoPlainRequest)
      (.ok (.val (.pyint 1))) [] = ([], .error hx_no_data_error) :=
  (hx_no_data_rejects_non_fragment demoRender none demoPlainRequest (.ok (.val (.pyint 1)))
    [] (by simp [demoPlainRequest])).1

/-- C3: when the handler raises and either no error render function is
configured or the request was not classified as an HTMX one, the wrapper
re-raises exactly the handler's exception; the trace shows the handler
invocation and nothing else, so no rendering is attempted. (The side
condition excludes the `no_data` rejection path, on which the handler can
never raise because it is never invoked.) -/
theorem hx_wrapper_error_propagation (render : RenderFn)
    (render_error : Option ErrorRenderFn) (no_data : Bool) (request : Request) (e : Exc)
    (kwargs : Kwargs)
    (hreach : no_data = false ∨ get_hx_request request ≠ none)
    (hno : render_error = none ∨ get_hx_request request = none) :
    hx_wrapper render render_error no_data (get_hx_request request) (.error e) kwargs =
      ([.handlerInvoked], .error e)
  ∧ Event.renderCalled ∉
      (hx_wrapper render render_error no_data (get_hx_request request) (.error e) kwargs).1
  ∧ Event.errorRenderCalled ∉
      (hx_wrapper render render_error no_data (get_hx_request request) (.error e) kwargs).1 := by
  have hmain : hx_wrapper render render_error no_data (get_hx_request request) (.error e)
      kwargs = ([.handlerInvoked], .error e) := by
    rcases hno with hno | hno
    · subst hno
      rcases hreach with hr | hr
      · subst hr
        cases hhx : get_hx_request request <;> simp [hx_wrapper, hhx]
      · cases hhx : get_hx_request request with
        | none => exact absurd hhx hr
        | some req => simp [hx_wrapper, hhx]
    · rw [hno]
      rcases hreach with hr | hr
      · subst hr
        cases render_error <;> simp [hx_wrapper]
      · exact absurd hno hr
  refine ⟨hmain, ?_, ?_⟩ <;> rw [hmain] <;> simp

/-- C3 witness: with no error renderer configured, a route error on an
HTMX request is re-raised unchanged. -/
theorem hx_wrapper_error_propagation_witness :
    hx_wrapper demoRender none false (get_hx_request demoHxRequest) (.error demoErrExc) [] =
      ([.handlerInvoked], .error demoErrExc) :=
  (hx_wrapper_error_propagation demoRender none false demoHxRequest demoErrExc []
    (Or.inl rfl) (Or.inl rfl)).1

theorem hx_wrapper_respects (render : RenderFn) (render_error : Option ErrorRenderFn)
    (no_data : Bool) (hx_request : Option Request) (handler : Except Exc RouteResult)
    (kwargs : Kwargs) :
    respects_side_channel kwargs
      (hx_wrapper render render_error no_data hx_request handler kwargs) := by
  refine respects_side_channel_intro kwargs _ ?_ ?_ <;>
  · intro x hout
    unfold hx_wrapper at hout
    repeat' split at hout
    all_goals (try simp at hout)
    all_goals (try subst hout)
    all_goals simp_all [make_html, make_streaming]

theorem hx_wrapper_stream_respects (render : StreamingRenderFn)
    (render_error : Option StreamingErrorRenderFn) (no_data : Bool)
    (hx_request : Option Request) (handler : Except Exc RouteResult) (kwargs : Kwargs) :
    respects_side_channel kwargs
      (hx_wrapper_stream render render_error no_data hx_request handler kwargs) := by
  refine respects_side_channel_intro kwargs _ ?_ ?_ <;>
  · intro x hout
    unfold hx_wrapper_stream at hout
    repeat' split at hout
    all_goals (try simp at hout)
    all_goals (try subst hout)
    all_goals simp_all [make_html, make_streaming]

theorem page_wrapper_respects (render : RenderFn) (render_error : Option ErrorRenderFn)
    (page_request : Request) (handler : Except Exc RouteResult) (kwargs : Kwargs) :
    respects_side_channel kwargs
      (page_wrapper render render_error page_request handler kwargs) := by
  refine respects_side_channel_intro kwargs _ ?_ ?_ <;>
  · intro x hout
    unfold page_wrapper at hout
    repeat' split at hout
    all_goals (try simp at hout)
    all_goals (try subst hout)
    all_goals simp_all [make_html, make_streaming]

theorem page_wrapper_stream_respects (render : StreamingRenderFn)
    (render_error : Option StreamingErrorRenderFn) (page_request : Request)
    (handler : Except Exc RouteResult) (kwargs : Kwargs) :
    respects_side_channel kwargs
      (page_wrapper_stream render render_error page_request handler kwargs) := by
  refine respects_side_channel_intro kwargs _ ?_ ?_ <;>
  · intro x hout
    unfold page_wrapper_stream at hout
    repeat' split at hout
    all_goals (try simp at hout)
    all_goals (try subst hout)
    all_goals simp_all [make_html, make_streaming]

/-- C7: every rendered response assembled by the `hx` or `page` wrapper —
buffered or streaming, success or error-render path — carries the
side-channel response's status code when one is set (and nonzero), 200
when there is no side-channel response among the keyword arguments or its
status code is unset, and the side-channel response's headers and
background-task reference; in particular a status code the handler set on
the side-channel response before raising is preserved on the
error-rendered response. -/
theorem response_assembly_side_channel (render : RenderFn) (renderS : StreamingRenderFn)
    (render_error : Option ErrorRenderFn) (render_errorS : Option StreamingErrorRenderFn)
    (no_data : Bool) (hx_request : Option Request) (page_request : Request)
    (handler : Except Exc RouteResult) (kwargs : Kwargs) :
    respects_side_channel kwargs
      (hx_wrapper render render_error no_data hx_request handler kwargs)
  ∧ respects_side_channel kwargs
      (hx_wrapper_stream renderS render_errorS no_data hx_request handler kwargs)
  ∧ respects_side_channel kwargs
      (page_wrapper render render_error page_request handler kwargs)
  ∧ respects_side_channel kwargs
      (page_wrapper_stream renderS render_errorS page_request handler kwargs) :=
  ⟨hx_wrapper_respects render render_error no_data hx_request handler kwargs,
   hx_wrapper_stream_respects renderS render_errorS no_data hx_request handler kwargs,
   page_wrapper_respects render render_error page_request handler kwargs,
   page_wrapper_stream_respects renderS render_errorS page_request handler kwargs⟩

/-- C7 witness: on the error-render path, the status code 456 that the
handler stored on the side-channel response before raising, and the
header it set, appear on the assembled response. -/
theorem response_assembly_side_channel_witness :
    (make_html (get_response demoKwargs456) "<err/>").status_code = 456
  ∧ (make_html (get_response demoKwargs456) "<err/>").headers =
      some [("test-header", "exists")] :=
  let thm := response_assembly_side_channel demoRender demoStreamRender (some demoErrRender)
    (some demoStreamErrRender) false (some demoHxRequest) demoHxRequest (.error demoErrExc)
    demoKwargs456
  ⟨((thm.1.1 (make_html (get_response demoKwargs456) "<err/>") rfl).2.2.2.2
      { status_code := some 456, headers := [("test-header", "exists")] } 456 rfl rfl
      (by decide)),
   (thm.1.1 (make_html (get_response demoKwargs456) "<err/>") rfl).1⟩

/-- C8: in streaming mode, the component selector is resolved by the
synchronous renderer call before a streaming response object is handed to
the transport: whenever selector resolution raises, the wrapper raises
that exception, the transport never receives a response, and no chunk is
ever produced. -/
theorem streaming_target_resolution_first {C : Type} (sel : RequestSelector C)
    (stream_fn : C → PyVal → Kwargs → Request → List String)
    (render_error : Option StreamingErrorRenderFn) (request : Request) (v : PyVal)
    (kwargs : Kwargs) (e : Exc)
    (hres : sel.get_component request none = .error e) :
    (hx_wrapper_stream (htmy_streaming_render (.requestSel sel) stream_fn) render_error
        false (some request) (.ok (.val v)) kwargs).2 = .error e
  ∧ (consume_streaming
      (hx_wrapper_stream (htmy_streaming_render (.requestSel sel) stream_fn) render_error
        false (some request) (.ok (.val v)) kwargs)).all (fun ev => !ev.isChunk) = true
  ∧ Event.responseReturned ∉
      consume_streaming
        (hx_wrapper_stream (htmy_streaming_render (.requestSel sel) stream_fn) render_error
          false (some request) (.ok (.val v)) kwargs) := by
  have hrender : htmy_streaming_render (.requestSel sel) stream_fn v kwargs request =
      .error e := by
    simp [htmy_streaming_render, CSelector.resolve, hres]
  refine ⟨?_, ?_, ?_⟩ <;>
    simp [hx_wrapper_stream, hrender, consume_streaming, Event.isChunk]

/-- C8 witness: a header-keyed selector over an empty component table
fails to resolve, and the streaming wrapper raises before any response or
chunk exists. -/
theorem streaming_target_resolution_first_witness :
    (hx_wrapper_stream
        (htmy_streaming_render (.requestSel (.headerSel demoEmptyComponentHeader))
          (fun (_ : Nat) _ _ _ => ["chunk"]))
        none false (some demoComponentRequest) (.ok (.val (.pyint 1))) []).2 =
      .error (.mk .keyError (pyLower "fOO") none none) :=
  (streaming_target_resolution_first (.headerSel demoEmptyComponentHeader)
    (fun (_ : Nat) _ _ _ => ["chunk"]) none demoComponentRequest (.pyint 1) []
    (.mk .keyError (pyLower "fOO") none none) rfl).1

/-- C9 counterexample: on the Jinja error-render path, a `LookupError`
raised by template-selector resolution escapes unconverted when it is not
a `KeyError`: an `IndexError` the selector re-raises (because no
accepted-error filter is configured) propagates out of the render
function as-is, not wrapped in a `ValueError`. -/
theorem jinja_lookup_escape_counterexample :
    (Jinja.render_fn (.requestSel (.headerSel demoTemplateHeader)) demoCtxFactory none true
        demoEngine (.exc demoIndexError) [] demoPlainRequest).2 = .error demoIndexError
  ∧ demoIndexError.cls.isSubclass .lookupError = true
  ∧ demoIndexError.cls.isSubclass .keyError = false :=
  ⟨rfl, by decide, by decide⟩

/-- C9 (amended): when template-selector resolution raises a `KeyError`,
the Jinja render function raises
`ValueError("Failed to resolve template name from request.")` with that
`KeyError` as its cause, so a `KeyError` from resolution never escapes the
Jinja rendering path unconverted (`LookupError`s that are not `KeyError`s
do escape unconverted). -/
theorem jinja_keyerror_conversion (sel : RequestSelector JinjaStr) (mc : ContextFactory)
    (pfx : Option String) (request : Request) (result : RouteArg) (context : Kwargs)
    (engine : String → List (String × PyVal) → String) (ke : Exc)
    (hsel : sel.get_component request none = .error ke)
    (hke : ke.cls.isSubclass .keyError = true) :
    Jinja.resolve_template_name (.requestSel sel) none pfx request =
      .error (.mk .valueError "Failed to resolve template name from request." none (some ke))
  ∧ (Jinja.render_fn (.requestSel sel) mc pfx false engine result context request).2 =
      .error (.mk .valueError "Failed to resolve template name from request." none (some ke))
  ∧ (Exc.mk .valueError "Failed to resolve template name from request." none
      (some ke)).cause = some ke := by
  refine ⟨?_, ?_, rfl⟩
  · simp [Jinja.resolve_template_name, hsel, hke]
  · simp [Jinja.render_fn, Jinja.resolve_template_name, hsel, hke]

/-- C9 witness: a selector with no default and a request without the
header raises a `KeyError`, which the Jinja rendering path converts to the
`ValueError` with that `KeyError` as its cause. -/
theorem jinja_keyerror_conversion_witness :
    (Jinja.render_fn (.requestSel (.headerSel demoTemplateHeader)) demoCtxFactory none false
        demoEngine (.val .pynone) [] demoPlainRequest).2 =
      .error (.mk .valueError "Failed to resolve template name from request." none
        (some (.mk .keyError
          "Default component factory was not set and header was not found." none none))) :=
  (jinja_keyerror_conversion (.headerSel demoTemplateHeader) demoCtxFactory none
    demoPlainRequest (.val .pynone) [] demoEngine
    (.mk .keyError "Default component factory was not set and header was not found." none
      none) rfl (by decide)).2.1

/-- C10: `JinjaContext.unpack_result_with_route_context` returns the very
route-context dictionary object it was given, mutated in place by merging
in the keys unpacked from the route result, while the unpacked result
dictionary itself is left unmodified. -/
theorem unpack_with_route_context_in_place (h h1 : Heap) (route_result : RVal)
    (rcRef resRef : Nat) (out : Nat × Heap)
    (hval : rcRef < h.cells.length)
    (hu : unpack_object_h h route_result = .ok (resRef, h1))
    (hrun : unpack_result_with_route_context_h h route_result rcRef = .ok out) :
    out.1 = rcRef
  ∧ out.2.get rcRef = dictUpdate (h.get rcRef) (h1.get resRef)
  ∧ out.2.get resRef = h1.get resRef := by
  obtain ⟨hlen, hframe⟩ := unpack_object_h_frame h route_result resRef h1 hu
  have hrc : h1.get rcRef = h.get rcRef := hframe rcRef hval
  have hlt : rcRef < h1.cells.length := lt_of_lt_of_le hval hlen
  unfold unpack_result_with_route_context_h at hrun
  rw [hu] at hrun
  dsimp only at hrun
  split at hrun
  · exact absurd hrun (by simp)
  · rename_i hov
    have hout : out = (rcRef, h1.set rcRef (dictUpdate (h1.get rcRef) (h1.get resRef))) := by
      have hinj := hrun
      simp only [Except.ok.injEq] at hinj
      exact hinj.symm
    subst hout
    refine ⟨rfl, ?_, ?_⟩
    · rw [Heap.get_set_self h1 rcRef _ hlt, hrc]
    · by_cases hrr : resRef = rcRef
      · subst hrr
        have hnil : h1.get resRef = [] := by
          by_contra hne
          cases hD : h1.get resRef with
          | nil => exact hne hD
          | cons p rest =>
            rw [hD] at hov
            simp [dictKeys] at hov
        rw [Heap.get_set_self h1 resRef _ hlt, hnil]
        rfl
      · exact Heap.get_set_ne h1 rcRef resRef _ hrr

/-- C10 witness: merging the dictionary in cell 1 into the route context
in cell 0 returns cell 0 itself, now holding both keys, and leaves cell 1
untouched. -/
theorem unpack_with_route_context_in_place_witness :
    ((0 : Nat), demoHeapAfter).1 = 0
  ∧ ((0 : Nat), demoHeapAfter).2.get 0 = dictUpdate (demoHeap.get 0) (demoHeap.get 1)
  ∧ ((0 : Nat), demoHeapAfter).2.get 1 = demoHeap.get 1 :=
  unpack_with_route_context_in_place demoHeap demoHeap (.ref 1) 0 1 (0, demoHeapAfter)
    (by decide) rfl rfl

end FastHX
